import Mathlib

/-!
Shallow embedding of the agent protocol module (`agent.py`) of the
blackfire python-sdk: Python strings are modelled as lists of characters,
Python dictionaries as key-unique association lists, raised exceptions as
`Except` errors, and the socket's successive reads as an explicit list of
chunks.
-/

set_option maxRecDepth 8000

deriving instance DecidableEq for Except

namespace BlackfireAgent

/-- Characters of a Python `str`, modelled as a list of characters. -/
abbrev Str := List Char

/-- Coerce a Lean string literal to the `Str` representation. -/
def str (s : String) : Str := s.toList

/-- Python `str.strip` whitespace set: space, tab, newline, carriage
return, vertical tab, form feed. -/
def pyIsSpace (c : Char) : Bool :=
  (c == ' ') || (c == '\t') || (c == '\n') || (c == '\r') || (c == '\x0b') || (c == '\x0c')

/-- Python `s.strip()`: drop leading and trailing whitespace. -/
def stripL (l : Str) : Str :=
  ((l.dropWhile pyIsSpace).reverse.dropWhile pyIsSpace).reverse

/-- Python `s.split(c)` on a one-character separator: always at least one
segment, with empty segments between adjacent separators. -/
def splitOnChar (sep : Char) : Str → List Str
  | [] => [[]]
  | c :: cs =>
    if c = sep then [] :: splitOnChar sep cs
    else
      match splitOnChar sep cs with
      | [] => [[c]]
      | h :: t => (c :: h) :: t

/-- The text before and after the first occurrence of `sep`, or `none`
when `sep` is absent; models Python `s.split(c, 1)` succeeding with two
parts, and also `s.find(c)` plus slicing. -/
def splitFirst (sep : Char) : Str → Option (Str × Str)
  | [] => none
  | c :: cs =>
    if c = sep then some ([], cs)
    else (splitFirst sep cs).map (fun p => (c :: p.1, p.2))

/-- Python `s.rsplit(c, 1)` succeeding with two parts: the text before and
after the last occurrence of `sep`, or `none` when `sep` is absent. -/
def rsplitOnce (sep : Char) (l : Str) : Option (Str × Str) :=
  (splitFirst sep l.reverse).map (fun p => (p.2.reverse, p.1.reverse))

/-- Boolean list-prefix test. -/
def isPrefixL : Str → Str → Bool
  | [], _ => true
  | _ :: _, [] => false
  | a :: as, b :: bs => (a == b) && isPrefixL as bs

/-- Boolean list-suffix test (Python `s.endswith(t)`). -/
def isSuffixL (suf l : Str) : Bool := isPrefixL suf.reverse l.reverse

/-- Python substring containment `needle in hay`. -/
def containsSub (needle : Str) : Str → Bool
  | [] => needle.isEmpty
  | c :: cs => isPrefixL needle (c :: cs) || containsSub needle cs

/-- Python `s.split('\n\n')`: split on the double-newline frame marker,
non-overlapping, scanning left to right. -/
def splitOnMarker : Str → List Str
  | '\n' :: '\n' :: rest => [] :: splitOnMarker rest
  | c :: rest =>
    match splitOnMarker rest with
    | [] => [[c]]
    | h :: t => (c :: h) :: t
  | [] => [[]]

/-- Python `s.isdigit()` restricted to ASCII digits (the only tokens the
protocol carries). -/
def isdigitL (l : Str) : Bool := !l.isEmpty && l.all Char.isDigit

/-- Python `int(s)` on an all-digit string. -/
def natOfDigits (l : Str) : Nat := l.foldl (fun n c => 10 * n + (c.toNat - 48)) 0

/-- Python `s.lower()` (ASCII header names only). -/
def toLowerL (l : Str) : Str := l.map Char.toLower

/-- First-occurrence lookup in an association list; on the key-unique
lists built by `dictSet`/`argsAppend` this is Python dict lookup. -/
def alookup {β : Type} : List (Str × β) → Str → Option β
  | [], _ => none
  | p :: rest, k => if p.1 = k then some p.2 else alookup rest k

/-- `Option` left-biased choice. -/
def oOr {α : Type} : Option α → Option α → Option α
  | some x, _ => some x
  | none, b => b

/-- Python `d[k] = v` on a key-unique association list: update in place
when the key exists, else append (dicts preserve insertion order). -/
def dictSet {β : Type} (d : List (Str × β)) (k : Str) (v : β) : List (Str × β) :=
  if (alookup d k).isSome then d.map (fun p => if p.1 = k then (k, v) else p)
  else d ++ [(k, v)]

/-- Python `dict(pairs)`: the first occurrence of a key fixes its
position, the last value for the key wins. -/
def dictOfPairs {β : Type} (ps : List (Str × β)) : List (Str × β) :=
  ps.foldl (fun d p => dictSet d p.1 p.2) []

/-- Python `d1.update(d2)` on key-unique association lists: a key already
in `d1` keeps its position but takes `d2`'s value, keys only in `d2` are
appended in `d2`'s order. -/
def dictUpdate {β : Type} (d1 d2 : List (Str × β)) : List (Str × β) :=
  d1.map (fun p =>
    match alookup d2 p.1 with
    | some v => (p.1, v)
    | none => p) ++
  d2.filter (fun p => (alookup d1 p.1).isNone)

/-- Modelled from the spec: `parse_qsl` is imported from
`blackfire.utils`, which is not under src/.  The spec describes the status
value as a `key=value&key=value` query string whose `+` decodes to a space
(`bad+signature` carries message `bad signature`); a field without `=` is
dropped.  Percent escapes are not modelled (no claim exercises them). -/
def parse_qsl (l : Str) : List (Str × Str) :=
  (splitOnChar '&' l).filterMap (fun field =>
    (splitFirst '=' field).map (fun p =>
      (p.1.map (fun c => if c = '+' then ' ' else c),
       p.2.map (fun c => if c = '+' then ' ' else c))))

/-- The multi-valued argument mapping of a response: each key carries the
ordered list of values seen for it (`defaultdict(list)`). -/
abbrev Args := List (Str × List Str)

/-- `self.args[k].append(v)` on a `defaultdict(list)`. -/
def argsAppend (args : Args) (k : Str) (v : Str) : Args :=
  if (alookup args k).isSome then
    args.map (fun p => if p.1 = k then (p.1, p.2 ++ [v]) else p)
  else args ++ [(k, [v])]

/-- `self.args.get(key, [])`. -/
def argsGetD (args : Args) (k : Str) : List Str := (alookup args k).getD []

/-- The exceptions the embedded code can raise. -/
inductive PyErr
  | valueError
  | indexError
  | typeError
  | keyError (k : Str)
  | blackfireApiException (msg : Str)
  | blackfireAPMException (msg : Str)
  | blackfireAPMStatusFalse (msg : Str)
deriving DecidableEq

/-- `Protocol.HEADER_MARKER`. -/
def HEADER_MARKER : Str := ['\n']

/-- `Protocol.MARKER`. -/
def MARKER : Str := ['\n', '\n']

/-- `Connection._contains_blackfireyaml_header`. -/
def contains_blackfireyaml_header (recv_wnd : Str) : Bool :=
  containsSub (str "blackfire_yml=true") recv_wnd

/-- Outcome of `Connection.recv`: a returned buffer, a raised
`BlackfireApiException`, or the loop still blocked on the socket when the
supplied chunks are exhausted. -/
inductive RecvResult
  | ok (buf : Str)
  | err (msg : Str)
  | pending (buf : Str)
deriving DecidableEq

/-- The wrapped message raised when a socket read returns zero bytes. -/
def recvFailClosedMsg : Str := str "Agent recv data failed.[Agent closed the connection.]"

/-- `Connection.recv`'s accumulation loop, with the successive values
returned by `socket.recv` given as the list of chunks. -/
def recvLoop : List Str → Str → RecvResult
  | [], acc => .pending acc
  | d :: rest, acc =>
    if d = [] then .err recvFailClosedMsg
    else if contains_blackfireyaml_header (acc ++ d) && isSuffixL HEADER_MARKER (acc ++ d) then
      .ok (acc ++ d)
    else if isSuffixL MARKER (acc ++ d) then .ok (acc ++ d)
    else recvLoop rest (acc ++ d)

/-- `Connection.recv` starting from the empty buffer. -/
def recv (reads : List Str) : RecvResult := recvLoop reads []

/-- `BlackfireRequest`: an insertion-ordered, key-unique header mapping
plus an optional body. -/
structure BlackfireRequest where
  headers : List (Str × Str)
  data : Option Str
deriving DecidableEq

/-- `BlackfireRequest.__init__`: header names are lower-cased except the
two reserved names `Blackfire-Query` and `Blackfire-Probe`. -/
def BlackfireRequest.init (headers : List (Str × Str)) (data : Option Str) : BlackfireRequest :=
  { headers := headers.foldl (fun d p =>
      if p.1 = str "Blackfire-Query" ∨ p.1 = str "Blackfire-Probe" then dictSet d p.1 p.2
      else dictSet d (toLowerL p.1) p.2) [],
    data := data }

/-- The `for k, v in self.headers.items()` loop of
`BlackfireRequest.to_bytes`: every header except `Blackfire-Query` and
`file-format`, rendered `name: value\n` in stored order. -/
def renderRemaining (headers : List (Str × Str)) : Str :=
  headers.foldl (fun acc p =>
    if p.1 = str "Blackfire-Query" ∨ p.1 = str "file-format" then acc
    else acc ++ p.1 ++ str ": " ++ p.2 ++ ['\n']) []

/-- `if self.data: result += str(self.data)` — `None` and the empty
string are both falsy. -/
def renderData : Option Str → Str
  | some d => if d = [] then [] else d
  | none => []

/-- `BlackfireRequest.to_bytes`. -/
def BlackfireRequest.to_bytes (r : BlackfireRequest) : Str :=
  (match alookup r.headers (str "file-format") with
   | some v => str "file-format: " ++ v ++ ['\n']
   | none => []) ++
  (match alookup r.headers (str "Blackfire-Query") with
   | some v => str "Blackfire-Query: " ++ v ++ ['\n']
   | none => []) ++
  renderRemaining r.headers ++
  (if r.headers = [] then [] else ['\n']) ++
  renderData r.data

/-- The header-line loop of `BlackfireRequest.from_bytes`: a line with a
colon stores `line[:spos].strip() ↦ line[spos+1:].strip()`, a line
without one is skipped. -/
def parseHeaderLines (hdrs : List (Str × Str)) (block : Str) : List (Str × Str) :=
  (splitOnChar '\n' block).foldl (fun d line =>
    match splitFirst ':' line with
    | some p => dictSet d (stripL p.1) (stripL p.2)
    | none => d) hdrs

/-- `BlackfireRequest.from_bytes`: split on the `\n\n` frame marker and
accept exactly 1, 2 or 3 segments. -/
def BlackfireRequest.from_bytes (r : BlackfireRequest) (data : Str) : Except PyErr BlackfireRequest :=
  match splitOnMarker data with
  | [h, b, c] => .ok { headers := parseHeaderLines r.headers h, data := some (b ++ '\n' :: c) }
  | [h, b] => .ok { headers := parseHeaderLines r.headers h, data := some b }
  | [h] => .ok { headers := parseHeaderLines r.headers h, data := r.data }
  | _ => .error (.blackfireApiException (str "Invalid BlackfireRequest message. " ++ data))

/-- `BlackfireResponse.StatusCode`. -/
inductive StatusCode | OK | ERR
deriving DecidableEq

/-- The simple response dialect (`BlackfireResponse`). -/
structure BlackfireResponse where
  status_code : StatusCode
  status_val : Str
  status_val_dict : List (Str × Str)
  args : Args
  raw_data : Str
deriving DecidableEq

/-- The argument-line loop of `BlackfireResponse.from_bytes`:
`line.split(':', 1)` must produce two parts (a line without a colon
raises), and stripped key/value pairs accumulate into `args`. -/
def parseArgLines (acc : Args) : List Str → Except PyErr Args
  | [] => .ok acc
  | line :: rest =>
    match splitFirst ':' line with
    | some p => parseArgLines (argsAppend acc (stripL p.1) (stripL p.2)) rest
    | none => .error .valueError

/-- `dict(parse_qsl(self.status_val))` applied to the raw status value
(the code first strips it). -/
def statusValDict (v : Str) : List (Str × Str) := dictOfPairs (parse_qsl (stripL v))

/-- `BlackfireResponse.from_bytes`: the stripped text's first line is
split on all colons and must unpack into exactly a type token and a
value; the remaining lines feed the multi-valued `args`. -/
def BlackfireResponse.from_bytes (data : Str) : Except PyErr BlackfireResponse :=
  match splitOnChar '\n' (stripL data) with
  | [] => .error .valueError
  | line0 :: rest =>
    match splitOnChar ':' line0 with
    | [t, v] =>
      match parseArgLines [] rest with
      | .error e => .error e
      | .ok args =>
        .ok { status_code := if stripL t = str "Blackfire-Error" then .ERR else .OK,
              status_val := stripL v,
              status_val_dict := statusValDict v,
              args := args,
              raw_data := stripL data }
    | _ => .error .valueError

/-- `BlackfireResponseBase.FN_ARGS_KEY`. -/
def FN_ARGS_KEY : Str := str "Blackfire-Fn-Args"

/-- `BlackfireResponseBase.CONSTANTS_KEY`. -/
def CONSTANTS_KEY : Str := str "Blackfire-Const"

/-- `BlackfireResponseBase.TIMESPAN_KEY`. -/
def TIMESPAN_KEY : Str := str "Blackfire-Timespan"

/-- An argument identifier: an all-digit token becomes an integer, any
other token stays a string. -/
inductive ArgVal
  | int (n : Nat)
  | str (s : Str)
deriving DecidableEq

/-- `arg_ids_s.strip().split(',')` with per-token digit coercion. -/
def parseArgIds (s : Str) : List ArgVal :=
  (splitOnChar ',' (stripL s)).map (fun t => if isdigitL t then .int (natOfDigits t) else .str t)

/-- The loop of `BlackfireResponseBase.get_instrumented_funcs`: each value
is `rsplit(" ", 1)` into a name and an id list; a repeated name is
skipped with a warning (first directive wins). -/
def instrFuncsGo (acc : List (Str × List ArgVal)) : List Str → Except PyErr (List (Str × List ArgVal))
  | [] => .ok acc
  | v :: rest =>
    match rsplitOnce ' ' v with
    | none => .error .valueError
    | some p =>
      if (alookup acc (stripL p.1)).isSome then instrFuncsGo acc rest
      else instrFuncsGo (acc ++ [(stripL p.1, parseArgIds p.2)]) rest

/-- `get_instrumented_funcs` applied to the list stored under the
function-arguments key. -/
def instrFuncsOfList (vs : List Str) : Except PyErr (List (Str × List ArgVal)) :=
  instrFuncsGo [] vs

/-- The function-name part of a function-arguments directive: the text
before the last space, stripped. -/
def fnNameOf (v : Str) : Str := stripL ((rsplitOnce ' ' v).getD ([], [])).1

/-- The argument-id part of a function-arguments directive: the text
after the last space. -/
def fnArgPartOf (v : Str) : Str := ((rsplitOnce ' ' v).getD ([], [])).2

/-- `BlackfireResponseBase.get_instrumented_funcs` on a simple response. -/
def BlackfireResponse.get_instrumented_funcs (r : BlackfireResponse) :
    Except PyErr (List (Str × List ArgVal)) :=
  instrFuncsOfList (argsGetD r.args FN_ARGS_KEY)

/-- `BlackfireResponseBase.get_constants` on a simple response. -/
def BlackfireResponse.get_constants (r : BlackfireResponse) : List Str :=
  argsGetD r.args CONSTANTS_KEY

/-- The loop of `BlackfireResponseBase.get_timespan_selectors`: selectors
are sorted into a prefix set (`^`) and an exact set (`=`); other sigils
are skipped with a warning, and `ts_sel[0]` on an empty selector raises. -/
def tsOfList (vs : List Str) : Except PyErr (Finset Str × Finset Str) :=
  vs.foldlM (fun acc v =>
    match v with
    | [] => .error .indexError
    | c :: rest =>
      if c = '^' then .ok (insert rest acc.1, acc.2)
      else if c = '=' then .ok (acc.1, insert rest acc.2)
      else .ok acc) ((∅ : Finset Str), (∅ : Finset Str))

/-- `BlackfireResponseBase.get_timespan_selectors` on a simple response. -/
def BlackfireResponse.get_timespan_selectors (r : BlackfireResponse) :
    Except PyErr (Finset Str × Finset Str) :=
  tsOfList (argsGetD r.args TIMESPAN_KEY)

/-- The multi-section response dialect (`BlackfireAPMResponse`).  A page
entry is `none` when a close marker appears without an open marker (the
code appends the current `key_page`, which may be `None`). -/
structure BlackfireAPMResponse where
  status_val : Str
  status_val_dict : List (Str × Str)
  update_config : Bool
  args : Args
  key_pages : List (Option (List (Str × Str)))
  raw_data : Str
deriving DecidableEq

/-- The generic message used when `success` is false and no `error` key
was supplied. -/
def apmGenericFalseMsg : Str := str "status=False and no error received from Agent."

/-- The line loop of `BlackfireAPMResponse.from_bytes`: `key-page(` opens
a fresh page mapping, `)` appends it, any other line splits on the first
colon (raising when there is none) and stores into the open page or the
multi-valued `args`. -/
def apmParseLines (kp : Option (List (Str × Str))) (args : Args)
    (pages : List (Option (List (Str × Str)))) :
    List Str → Except PyErr (Args × List (Option (List (Str × Str))))
  | [] => .ok (args, pages)
  | l :: rest =>
    let line := stripL l
    if isPrefixL (str "key-page(") line then apmParseLines (some []) args pages rest
    else if isPrefixL (str ")") line then apmParseLines none args (pages ++ [kp]) rest
    else
      match splitFirst ':' line with
      | none => .error .valueError
      | some p =>
        match kp with
        | some page => apmParseLines (some (dictSet page (stripL p.1) (stripL p.2))) args pages rest
        | none => apmParseLines none (argsAppend args (stripL p.1) (stripL p.2)) pages rest

/-- `BlackfireAPMResponse.from_bytes`: the first line is split on all
colons, `resp[0]`/`resp[1]` are taken (raising `IndexError` when there is
no colon), an unstripped `Blackfire-Error` type raises the APM exception,
a `success` value containing `false` raises the status-false exception
with the `error` value or a generic message, and the remaining lines are
parsed into pages and arguments. -/
def BlackfireAPMResponse.from_bytes (data : Str) : Except PyErr BlackfireAPMResponse :=
  match splitOnChar '\n' (stripL data) with
  | [] => .error .indexError
  | line0 :: rest =>
    match splitOnChar ':' line0 with
    | t :: v :: _ =>
      if t = str "Blackfire-Error" then
        .error (.blackfireAPMException (str "Agent could not send APM trace. reason=" ++ v))
      else
        match alookup (statusValDict v) (str "success") with
        | none => .error (.keyError (str "success"))
        | some s =>
          if containsSub (str "false") s then
            .error (.blackfireAPMStatusFalse
              ((alookup (statusValDict v) (str "error")).getD apmGenericFalseMsg))
          else
            match apmParseLines none [] [] rest with
            | .error e => .error e
            | .ok pr =>
              .ok { status_val := stripL v,
                    status_val_dict := statusValDict v,
                    update_config :=
                      if (alookup (statusValDict v) (str "update_config")).getD (str "false") =
                          str "false"
                      then false else true,
                    args := pr.1,
                    key_pages := pr.2,
                    raw_data := stripL data }
    | _ => .error .indexError

/-- The response-processing portion of `Connection._write_prolog`
(src/agent.py lines 205-240): `raw1` and `raw2` are the byte strings the
two `recv()` calls deliver, `yml_content` is `blackfire_yml_content`
(`len(None)` in the second-round request raises a `TypeError`).  The
socket writes carry no information into the stored response and are
elided. -/
def write_prolog_responses (yml_content : Option Str) (raw1 raw2 : Str) :
    Except PyErr BlackfireResponse :=
  match BlackfireResponse.from_bytes raw1 with
  | .error e => .error e
  | .ok r1 =>
    if r1.status_code ≠ StatusCode.OK then
      .error (.blackfireApiException (str "Invalid response received from Agent."))
    else if alookup r1.status_val_dict (str "blackfire_yml") = some (str "true") then
      match yml_content with
      | none => .error .typeError
      | some _ =>
        match BlackfireResponse.from_bytes raw2 with
        | .error e => .error e
        | .ok r2 =>
          if r2.status_code ≠ StatusCode.OK then
            .error (.blackfireApiException
              (str "Invalid response received from Agent to blackfire_yml request."))
          else .ok { r1 with args := dictUpdate r1.args r2.args }
    else .ok r1

/-! ### General lemmas about the association-list and option helpers -/

theorem oOr_none_left {α : Type} (b : Option α) : oOr none b = b := rfl

theorem oOr_none_right {α : Type} (a : Option α) : oOr a none = a := by
  cases a <;> rfl

theorem oOr_some {α : Type} (x : α) (b : Option α) : oOr (some x) b = some x := rfl

theorem alookup_append {β : Type} (d e : List (Str × β)) (k : Str) :
    alookup (d ++ e) k = oOr (alookup d k) (alookup e k) := by
  induction d with
  | nil => simp [alookup, oOr]
  | cons p rest ih =>
    by_cases h : p.1 = k
    · simp [alookup, h, oOr]
    · simp [alookup, h, ih]

theorem alookup_mapUpdate {β : Type} (d1 d2 : List (Str × β)) (k : Str) :
    alookup (d1.map (fun p =>
        match alookup d2 p.1 with
        | some v => (p.1, v)
        | none => p)) k =
      (alookup d1 k).map (fun w => (alookup d2 k).getD w) := by
  induction d1 with
  | nil => simp [alookup]
  | cons p rest ih =>
    obtain ⟨k1, v1⟩ := p
    by_cases h : k1 = k
    · subst h
      cases hd : alookup d2 k1 <;> simp [alookup, hd]
    · cases hd : alookup d2 k1 <;> simp [alookup, hd, h, ih]

theorem alookup_filterNone {β : Type} (d1 d2 : List (Str × β)) (k : Str) :
    alookup (d2.filter (fun p => (alookup d1 p.1).isNone)) k =
      if (alookup d1 k).isNone = true then alookup d2 k else none := by
  induction d2 with
  | nil => simp [alookup]
  | cons p rest ih =>
    obtain ⟨k2, v2⟩ := p
    by_cases h : k2 = k
    · subst h
      by_cases hn : (alookup d1 k2).isNone = true
      · simp [List.filter_cons, alookup, hn]
      · simp [List.filter_cons, alookup, hn, ih]
    · by_cases hn2 : (alookup d1 k2).isNone = true
      · simp [List.filter_cons, alookup, hn2, h, ih]
      · simp [List.filter_cons, alookup, hn2, h, ih]

/-- Lookup after `dict.update`: the second mapping's keys win, the rest
fall back to the first mapping. -/
theorem alookup_dictUpdate {β : Type} (d1 d2 : List (Str × β)) (k : Str) :
    alookup (dictUpdate d1 d2) k = oOr (alookup d2 k) (alookup d1 k) := by
  unfold dictUpdate
  rw [alookup_append, alookup_mapUpdate, alookup_filterNone]
  cases h1 : alookup d1 k <;> cases h2 : alookup d2 k <;> simp [oOr]

/-- Any buffer `recvLoop` returns satisfies one of the two termination
conditions of the read loop. -/
theorem recvLoop_ok_terminator (reads : List Str) :
    ∀ acc buf, recvLoop reads acc = .ok buf →
      (contains_blackfireyaml_header buf && isSuffixL HEADER_MARKER buf) = true ∨
      isSuffixL MARKER buf = true := by
  induction reads with
  | nil => intro acc buf h; simp [recvLoop] at h
  | cons d rest ih =>
    intro acc buf h
    by_cases hd : d = []
    · simp [recvLoop, hd] at h
    · rw [recvLoop, if_neg hd] at h
      by_cases h1 :
          (contains_blackfireyaml_header (acc ++ d) && isSuffixL HEADER_MARKER (acc ++ d)) = true
      · rw [if_pos h1] at h
        cases h
        exact Or.inl h1
      · rw [if_neg h1] at h
        by_cases h2 : isSuffixL MARKER (acc ++ d) = true
        · rw [if_pos h2] at h
          cases h
          exact Or.inr h2
        · rw [if_neg h2] at h
          exact ih _ _ h

/-- C2: for every receive sequence in which the accumulated buffer comes
to contain the literal `blackfire_yml=true` marker and to end with the
header terminator `\n`, `recv` returns the accumulated buffer at that
point without requiring the full-frame marker `\n\n`. -/
theorem claim_C2_header_only_short_circuit (rest : List Str) (acc d : Str)
    (hd : d ≠ [])
    (h1 : contains_blackfireyaml_header (acc ++ d) = true)
    (h2 : isSuffixL HEADER_MARKER (acc ++ d) = true) :
    recvLoop (d :: rest) acc = .ok (acc ++ d) := by
  rw [recvLoop, if_neg hd, if_pos (by rw [h1, h2]; rfl)]

/-- C2 witness: a stream that delivers exactly `blackfire_yml=true\n` and
then stalls makes `recv` terminate with those bytes. -/
theorem claim_C2_witness :
    recv [str "blackfire_yml=true\n"] = .ok (str "blackfire_yml=true\n") := by
  have h := claim_C2_header_only_short_circuit [] [] (str "blackfire_yml=true\n")
      (by decide) (by decide) (by decide)
  simpa [recv] using h

/-- C3: a zero-length socket read makes `recv` raise the typed receive
error, and `recv` never returns a buffer that lacks a terminating marker
(either the header-only condition with the `\n` terminator, or the
full-frame `\n\n` terminator). -/
theorem claim_C3_zero_read_raises (rest : List Str) (acc : Str) (reads : List Str) (buf : Str) :
    recvLoop ([] :: rest) acc = .err recvFailClosedMsg ∧
    (recv reads = .ok buf →
      (contains_blackfireyaml_header buf && isSuffixL HEADER_MARKER buf) = true ∨
      isSuffixL MARKER buf = true) :=
  ⟨by rw [recvLoop, if_pos rfl], fun h => recvLoop_ok_terminator reads [] buf h⟩

/-- C3 witness at concrete inputs: an immediate empty read errors, and a
concretely returned buffer carries a terminating marker. -/
theorem claim_C3_witness :
    recvLoop [[]] [] = .err recvFailClosedMsg ∧
    ((contains_blackfireyaml_header (str "ok\n\n") && isSuffixL HEADER_MARKER (str "ok\n\n")) = true ∨
      isSuffixL MARKER (str "ok\n\n") = true) :=
  ⟨(claim_C3_zero_read_raises [] [] [str "ok\n\n"] (str "ok\n\n")).1,
   (claim_C3_zero_read_raises [] [] [str "ok\n\n"] (str "ok\n\n")).2 (by decide)⟩

/-- C7: `BlackfireRequest.from_bytes` splits the decoded text on `\n\n`
and accepts exactly 1, 2 or 3 segments (1: headers only, body unchanged;
2: headers plus body; 3: headers plus the 2nd and 3rd segments joined by
an inserted newline); any other count raises the malformed-message
error. -/
theorem claim_C7_segment_counts (r : BlackfireRequest) (data : Str) :
    (∀ h, splitOnMarker data = [h] →
      r.from_bytes data = .ok { headers := parseHeaderLines r.headers h, data := r.data }) ∧
    (∀ h b, splitOnMarker data = [h, b] →
      r.from_bytes data = .ok { headers := parseHeaderLines r.headers h, data := some b }) ∧
    (∀ h b c, splitOnMarker data = [h, b, c] →
      r.from_bytes data =
        .ok { headers := parseHeaderLines r.headers h, data := some (b ++ '\n' :: c) }) ∧
    (4 ≤ (splitOnMarker data).length →
      r.from_bytes data =
        .error (.blackfireApiException (str "Invalid BlackfireRequest message. " ++ data))) := by
  refine ⟨?_, ?_, ?_, ?_⟩
  · intro h hs
    unfold BlackfireRequest.from_bytes
    rw [hs]
  · intro h b hs
    unfold BlackfireRequest.from_bytes
    rw [hs]
  · intro h b c hs
    unfold BlackfireRequest.from_bytes
    rw [hs]
  · intro hlen
    rcases hs : splitOnMarker data with _ | ⟨a, _ | ⟨b, _ | ⟨c, _ | ⟨d, t⟩⟩⟩⟩ <;>
      rw [hs] at hlen <;> simp at hlen
    unfold BlackfireRequest.from_bytes
    rw [hs]

/-- C7 witness: a 3-segment frame reconstructs the body with an inserted
newline, and a 4-segment frame raises the malformed-message error. -/
theorem claim_C7_witness :
    (BlackfireRequest.init [] none).from_bytes (str "a: b\n\nT\n\nX") =
      .ok { headers := parseHeaderLines (BlackfireRequest.init [] none).headers (str "a: b"),
            data := some (str "T" ++ '\n' :: str "X") } ∧
    (BlackfireRequest.init [] none).from_bytes (str "a\n\nb\n\nc\n\nd") =
      .error (.blackfireApiException
        (str "Invalid BlackfireRequest message. " ++ str "a\n\nb\n\nc\n\nd")) :=
  ⟨(claim_C7_segment_counts (BlackfireRequest.init [] none) (str "a: b\n\nT\n\nX")).2.2.1
      (str "a: b") (str "T") (str "X") (by decide),
   (claim_C7_segment_counts (BlackfireRequest.init [] none) (str "a\n\nb\n\nc\n\nd")).2.2.2
      (by decide)⟩

/-- C9: serializing a request built with headers `file-format: x`,
`Blackfire-Query: q`, `A: b` and no body, then parsing the bytes back
into a fresh request, recovers all three pairs (`A` case-folded to `a`)
and an empty body. -/
theorem claim_C9_round_trip :
    (BlackfireRequest.init [] none).from_bytes
        (BlackfireRequest.init
          [(str "file-format", str "x"), (str "Blackfire-Query", str "q"), (str "A", str "b")]
          none).to_bytes =
      .ok { headers := [(str "file-format", str "x"), (str "Blackfire-Query", str "q"),
                        (str "a", str "b")],
            data := some [] } := by
  decide

/-- C4: whenever both `file-format` and `Blackfire-Query` headers are
present, the serialized bytes begin with the `file-format` line, followed
immediately by the `Blackfire-Query` line, then all remaining headers in
stored order, the blank separator, and the body. -/
theorem claim_C4_header_ordering (r : BlackfireRequest) (fv qv : Str)
    (hf : alookup r.headers (str "file-format") = some fv)
    (hq : alookup r.headers (str "Blackfire-Query") = some qv) :
    r.to_bytes =
      (str "file-format: " ++ fv ++ ['\n']) ++
      ((str "Blackfire-Query: " ++ qv ++ ['\n']) ++
        (renderRemaining r.headers ++ (['\n'] ++ renderData r.data))) := by
  have hne : r.headers ≠ [] := by
    intro h
    rw [h] at hf
    simp [alookup] at hf
  unfold BlackfireRequest.to_bytes
  rw [hf, hq, if_neg hne]
  simp [List.append_assoc]

/-- C4 witness at a concrete request. -/
theorem claim_C4_witness :
    (BlackfireRequest.init
        [(str "file-format", str "x"), (str "Blackfire-Query", str "q"), (str "A", str "b")]
        none).to_bytes =
      (str "file-format: " ++ str "x" ++ ['\n']) ++
      ((str "Blackfire-Query: " ++ str "q" ++ ['\n']) ++
        (renderRemaining (BlackfireRequest.init
          [(str "file-format", str "x"), (str "Blackfire-Query", str "q"), (str "A", str "b")]
          none).headers ++ (['\n'] ++ renderData none))) :=
  claim_C4_header_ordering _ (str "x") (str "q") (by decide) (by decide)

/-- A no-colon line anywhere in the argument lines makes the simple
response's line loop raise the two-way unpacking error. -/
theorem parseArgLines_err (ls : List Str) :
    ∀ acc, (∃ l ∈ ls, splitFirst ':' l = none) → parseArgLines acc ls = .error .valueError := by
  induction ls with
  | nil =>
    intro acc h
    rcases h with ⟨l, hl, _⟩
    cases hl
  | cons x rest ih =>
    intro acc h
    rcases h with ⟨l, hl, hnone⟩
    rcases List.mem_cons.mp hl with rfl | hmem
    · rw [parseArgLines, hnone]
    · cases hx : splitFirst ':' x with
      | none => rw [parseArgLines, hx]
      | some p =>
        rw [parseArgLines, hx]
        exact ih _ ⟨l, hmem, hnone⟩

/-- C10: a non-empty no-colon line after the status line makes
`BlackfireResponse.from_bytes` raise; such a line is never skipped and
never reaches the argument mapping. -/
theorem claim_C10_no_colon_line_raises (data line0 : Str) (rest : List Str) (l : Str)
    (hsplit : splitOnChar '\n' (stripL data) = line0 :: rest)
    (hmem : l ∈ rest) (hne : l ≠ []) (hnc : splitFirst ':' l = none) :
    BlackfireResponse.from_bytes data = .error .valueError := by
  have hargs : parseArgLines [] rest = .error PyErr.valueError :=
    parseArgLines_err rest [] ⟨l, hmem, hnc⟩
  unfold BlackfireResponse.from_bytes
  rw [hsplit]
  rcases hts : splitOnChar ':' line0 with _ | ⟨t, _ | ⟨v, _ | ⟨w, more⟩⟩⟩ <;>
    simp [hts, hargs]

/-- C10 witness at a concrete response payload. -/
theorem claim_C10_witness :
    BlackfireResponse.from_bytes (str "Blackfire-Response: x\nnocolon") = .error .valueError :=
  claim_C10_no_colon_line_raises (str "Blackfire-Response: x\nnocolon")
    (str "Blackfire-Response: x") [str "nocolon"] (str "nocolon")
    (by decide) (by decide) (by decide) (by decide)

/-- C6 counterexample: the claim extends to status values that contain
colons, but `lines[0].split(':')` with two-way unpacking raises on
`Blackfire-Error: ti:meout\n` instead of splitting on the first colon
and returning status code ERROR with value `ti:meout`. -/
theorem claim_C6_counterexample :
    BlackfireResponse.from_bytes (str "Blackfire-Error: ti:meout\n") = .error .valueError := by
  decide

/-- C6 amended: for an input whose first line contains exactly one colon,
parsing splits the status line at that colon into a type token and a
value, sets status code ERROR exactly when the stripped type token equals
`Blackfire-Error` and OK otherwise, and stores the stripped value as the
status value. -/
theorem claim_C6_amended_status_line (data line0 t v : Str) (rest : List Str) (args : Args)
    (hsplit : splitOnChar '\n' (stripL data) = line0 :: rest)
    (hcolon : splitOnChar ':' line0 = [t, v])
    (hargs : parseArgLines [] rest = .ok args) :
    BlackfireResponse.from_bytes data =
      .ok { status_code := if stripL t = str "Blackfire-Error" then .ERR else .OK,
            status_val := stripL v,
            status_val_dict := statusValDict v,
            args := args,
            raw_data := stripL data } := by
  unfold BlackfireResponse.from_bytes
  rw [hsplit]
  simp [hcolon, hargs]

/-- C6 witness: `Blackfire-Error: timeout\n` parses to status code ERROR
and status value `timeout`. -/
theorem claim_C6_witness :
    BlackfireResponse.from_bytes (str "Blackfire-Error: timeout\n") =
      .ok { status_code := .ERR, status_val := str "timeout", status_val_dict := [],
            args := [], raw_data := str "Blackfire-Error: timeout" } := by
  rw [claim_C6_amended_status_line (str "Blackfire-Error: timeout\n")
      (str "Blackfire-Error: timeout") (str "Blackfire-Error") (str " timeout") [] []
      (by decide) (by decide) (by decide)]
  decide

/-- C5 counterexample: an input whose status value parses to a dict whose
`success` contains `false` but whose type token is the error marker
raises the APM-error exception, not the typed status-false exception the
claim requires. -/
theorem claim_C5_counterexample :
    BlackfireAPMResponse.from_bytes (str "Blackfire-Error: success=false\n") =
      .error (.blackfireAPMException
        (str "Agent could not send APM trace. reason= success=false")) := by
  decide

/-- C5 amended: for a multi-section response whose status-line type token
is not the error marker and whose status value parses to a dict in which
`success` contains the token `false`, parsing raises the typed
status-false exception carrying the dict's `error` value when present and
a generic message otherwise, and never returns successfully. -/
theorem claim_C5_amended_status_false (data line0 t v s : Str) (rest more : List Str)
    (hsplit : splitOnChar '\n' (stripL data) = line0 :: rest)
    (hcolon : splitOnChar ':' line0 = t :: v :: more)
    (hnotErr : t ≠ str "Blackfire-Error")
    (hs : alookup (statusValDict v) (str "success") = some s)
    (hfalse : containsSub (str "false") s = true) :
    BlackfireAPMResponse.from_bytes data =
      .error (.blackfireAPMStatusFalse
        ((alookup (statusValDict v) (str "error")).getD apmGenericFalseMsg)) := by
  unfold BlackfireAPMResponse.from_bytes
  rw [hsplit]
  simp [hcolon, hnotErr, hs, hfalse]

/-- C5 witness: the status line
`Blackfire-Response: success=false&error=bad+signature` fails with the
typed status-false exception carrying the message `bad signature`. -/
theorem claim_C5_witness :
    BlackfireAPMResponse.from_bytes
        (str "Blackfire-Response: success=false&error=bad+signature") =
      .error (.blackfireAPMStatusFalse (str "bad signature")) := by
  rw [claim_C5_amended_status_false
      (str "Blackfire-Response: success=false&error=bad+signature")
      (str "Blackfire-Response: success=false&error=bad+signature")
      (str "Blackfire-Response") (str " success=false&error=bad+signature") (str "false") [] []
      (by decide) (by decide) (by decide) (by decide) (by decide)]
  decide

/-- Characterization of the instrumented-functions loop: when every
directive contains a space, the loop succeeds and the resulting mapping
sends each function name to the argument ids of the FIRST directive
carrying that name (later directives for the same name are discarded). -/
theorem instrFuncsGo_characterization (vs : List Str) :
    ∀ acc, (∀ v ∈ vs, (rsplitOnce ' ' v).isSome = true) →
      ∃ m, instrFuncsGo acc vs = .ok m ∧
        ∀ f, alookup m f =
          oOr (alookup acc f)
            ((vs.find? (fun v => decide (fnNameOf v = f))).map
              (fun v => parseArgIds (fnArgPartOf v))) := by
  induction vs with
  | nil =>
    intro acc _
    exact ⟨acc, rfl, fun f => by simp [List.find?, oOr_none_right]⟩
  | cons v rest ih =>
    intro acc hall
    obtain ⟨p, hp⟩ := Option.isSome_iff_exists.mp (hall v (by simp))
    have hname : fnNameOf v = stripL p.1 := by simp [fnNameOf, hp]
    have harg : fnArgPartOf v = p.2 := by simp [fnArgPartOf, hp]
    have hrest : ∀ w ∈ rest, (rsplitOnce ' ' w).isSome = true :=
      fun w hw => hall w (by simp [hw])
    by_cases hdup : (alookup acc (stripL p.1)).isSome = true
    · obtain ⟨m, hm, hc⟩ := ih acc hrest
      refine ⟨m, ?_, ?_⟩
      · rw [instrFuncsGo, hp]
        simp only [if_pos hdup]
        exact hm
      · intro f
        rw [hc f]
        by_cases hf : fnNameOf v = f
        · rw [List.find?_cons_of_pos _ (by simp [hf])]
          rw [← hf, hname] at *
          obtain ⟨w, hw⟩ := Option.isSome_iff_exists.mp hdup
          rw [hname] at hw
          rw [hw, oOr_some, oOr_some]
        · rw [List.find?_cons_of_neg _ (by simp [hf])]
    · obtain ⟨m, hm, hc⟩ := ih (acc ++ [(stripL p.1, parseArgIds p.2)]) hrest
      have hnone : alookup acc (stripL p.1) = none := by
        cases h : alookup acc (stripL p.1)
        · rfl
        · rw [h] at hdup
          simp at hdup
      refine ⟨m, ?_, ?_⟩
      · rw [instrFuncsGo, hp]
        simp only [if_neg hdup]
        exact hm
      · intro f
        rw [hc f, alookup_append]
        by_cases hf : fnNameOf v = f
        · rw [List.find?_cons_of_pos _ (by simp [hf])]
          rw [← hf, hname]
          simp [alookup, hnone, oOr, harg]
        · rw [List.find?_cons_of_neg _ (by simp [hf])]
          have : alookup [(stripL p.1, parseArgIds p.2)] f = none := by
            rw [← hname]
            simp [alookup, hf]
          rw [this, oOr_none_right]

/-- C8 counterexample: the code splits each directive on the last SPACE
character (`rsplit(" ", 1)`), not on the last whitespace — a
tab-separated directive raises instead of yielding the mapping the claim
describes. -/
theorem claim_C8_counterexample :
    BlackfireResponse.get_instrumented_funcs
        { status_code := .OK, status_val := [], status_val_dict := [],
          args := [(FN_ARGS_KEY, [str "foo\t1"])], raw_data := [] } =
      .error .valueError ∧
    BlackfireResponse.get_instrumented_funcs
        { status_code := .OK, status_val := [], status_val_dict := [],
          args := [(FN_ARGS_KEY, [str "foo\t1"])], raw_data := [] } ≠
      .ok [(str "foo", [.int 1])] := by
  decide

/-- C8 amended: when every value under the function-arguments key
contains a space, `get_instrumented_funcs` succeeds, splits each value on
the last space into a stripped function name and a comma-separated
argument-id list with all-digit tokens coerced to integers, and maps each
function name to the id list of the first directive carrying it (later
directives for the same name are discarded with a warning). -/
theorem claim_C8_amended_first_wins (r : BlackfireResponse)
    (hsp : ∀ v ∈ argsGetD r.args FN_ARGS_KEY, (rsplitOnce ' ' v).isSome = true) :
    ∃ m, r.get_instrumented_funcs = .ok m ∧
      ∀ f, alookup m f =
        ((argsGetD r.args FN_ARGS_KEY).find? (fun v => decide (fnNameOf v = f))).map
          (fun v => parseArgIds (fnArgPartOf v)) := by
  obtain ⟨m, hm, hc⟩ :=
    instrFuncsGo_characterization (argsGetD r.args FN_ARGS_KEY) [] hsp
  exact ⟨m, hm, fun f => by simpa [alookup, oOr] using hc f⟩

/-- C8 witness: the two directives `foo 0,1` and `foo 2` yield the
mapping sending `foo` to the integer ids 0 and 1 (the second directive is
discarded). -/
theorem claim_C8_witness :
    ∃ m, BlackfireResponse.get_instrumented_funcs
        { status_code := .OK, status_val := [], status_val_dict := [],
          args := [(FN_ARGS_KEY, [str "foo 0,1", str "foo 2"])], raw_data := [] } = .ok m ∧
      ∀ f, alookup m f =
        ((argsGetD [(FN_ARGS_KEY, [str "foo 0,1", str "foo 2"])] FN_ARGS_KEY).find?
            (fun v => decide (fnNameOf v = f))).map
          (fun v => parseArgIds (fnArgPartOf v)) :=
  claim_C8_amended_first_wins
    { status_code := .OK, status_val := [], status_val_dict := [],
      args := [(FN_ARGS_KEY, [str "foo 0,1", str "foo 2"])], raw_data := [] }
    (by decide)

/-- C1: when the first handshake response parses with status OK and its
status-value dict carries `blackfire_yml=true`, and the second response
parses with status OK, `_write_prolog` stores the first response with the
second response's multi-valued argument mapping merged in: the second
response's keys win, keys absent from it keep the first response's
values, and function-argument, constant and timespan directives from the
second round are what the accessors on the stored object see. -/
theorem claim_C1_merge_directives (yml raw1 raw2 : Str) (r1 r2 : BlackfireResponse)
    (h1 : BlackfireResponse.from_bytes raw1 = .ok r1)
    (hok1 : r1.status_code = .OK)
    (hy : alookup r1.status_val_dict (str "blackfire_yml") = some (str "true"))
    (h2 : BlackfireResponse.from_bytes raw2 = .ok r2)
    (hok2 : r2.status_code = .OK) :
    write_prolog_responses (some yml) raw1 raw2 =
      .ok { r1 with args := dictUpdate r1.args r2.args } ∧
    (∀ k vs, alookup r2.args k = some vs → alookup (dictUpdate r1.args r2.args) k = some vs) ∧
    (∀ k, alookup r2.args k = none →
      alookup (dictUpdate r1.args r2.args) k = alookup r1.args k) ∧
    (∀ vs, alookup r2.args FN_ARGS_KEY = some vs →
      BlackfireResponse.get_instrumented_funcs { r1 with args := dictUpdate r1.args r2.args } =
        instrFuncsOfList vs) ∧
    (∀ vs, alookup r2.args CONSTANTS_KEY = some vs →
      BlackfireResponse.get_constants { r1 with args := dictUpdate r1.args r2.args } = vs) ∧
    (∀ vs, alookup r2.args TIMESPAN_KEY = some vs →
      BlackfireResponse.get_timespan_selectors { r1 with args := dictUpdate r1.args r2.args } =
        tsOfList vs) := by
  refine ⟨?_, ?_, ?_, ?_, ?_, ?_⟩
  · unfold write_prolog_responses
    rw [h1]
    simp [hok1, hy, h2, hok2]
  · intro k vs h
    rw [alookup_dictUpdate, h, oOr_some]
  · intro k h
    rw [alookup_dictUpdate, h, oOr_none_left]
  · intro vs h
    unfold BlackfireResponse.get_instrumented_funcs argsGetD
    rw [alookup_dictUpdate, h, oOr_some]
    rfl
  · intro vs h
    unfold BlackfireResponse.get_constants argsGetD
    rw [alookup_dictUpdate, h, oOr_some]
    rfl
  · intro vs h
    unfold BlackfireResponse.get_timespan_selectors argsGetD
    rw [alookup_dictUpdate, h, oOr_some]
    rfl

/-- C1 witness: a first response promising `blackfire_yml=true` followed
by a second response carrying a function-arguments directive stores a
merged response on which the accessor sees the second round's
directive. -/
theorem claim_C1_witness :
    write_prolog_responses (some []) (str "Blackfire-Response: blackfire_yml=true\n")
        (str "Blackfire-Response: success=true\nBlackfire-Fn-Args: foo 1,bar\n") =
      .ok { status_code := .OK, status_val := str "blackfire_yml=true",
            status_val_dict := [(str "blackfire_yml", str "true")],
            args := dictUpdate [] [(str "Blackfire-Fn-Args", [str "foo 1,bar"])],
            raw_data := str "Blackfire-Response: blackfire_yml=true" } ∧
    BlackfireResponse.get_instrumented_funcs
        { status_code := .OK, status_val := str "blackfire_yml=true",
          status_val_dict := [(str "blackfire_yml", str "true")],
          args := dictUpdate [] [(str "Blackfire-Fn-Args", [str "foo 1,bar"])],
          raw_data := str "Blackfire-Response: blackfire_yml=true" } =
      instrFuncsOfList [str "foo 1,bar"] := by
  have h := claim_C1_merge_directives [] (str "Blackfire-Response: blackfire_yml=true\n")
      (str "Blackfire-Response: success=true\nBlackfire-Fn-Args: foo 1,bar\n")
      { status_code := .OK, status_val := str "blackfire_yml=true",
        status_val_dict := [(str "blackfire_yml", str "true")],
        args := [],
        raw_data := str "Blackfire-Response: blackfire_yml=true" }
      { status_code := .OK, status_val := str "success=true",
        status_val_dict := [(str "success", str "true")],
        args := [(str "Blackfire-Fn-Args", [str "foo 1,bar"])],
        raw_data := str "Blackfire-Response: success=true\nBlackfire-Fn-Args: foo 1,bar" }
      (by decide) (by decide) (by decide) (by decide) (by decide)
  exact ⟨h.1, h.2.2.2.1 [str "foo 1,bar"] (by decide)⟩

end BlackfireAgent

